import Mathlib

/-!
Verification of the spatial tiling and region-query core of the
ska-sdp-global-sky-model repository (`crud.py`, `model.py`).

Real numbers of the Python code (degrees, fluxes) are modelled by `ℚ`;
Python's `%` on a positive modulus (result in `[0, modulus)`) is `qmod`;
fallible functions (those that `raise`) return `Except String`.

The SQLAlchemy classes of `model.py` become Lean structures.  The `AOI`
class and the HEALPix machinery (`healpix_alchemy.Tile` / `Point`) are not
part of the sources available here, so they are modelled from the spec:
an AOI is a persisted hierarchical tile identifier (a cell of the sphere,
encoded as a nested-index range) with a store-assigned row id; tile/point
containment is membership of the point's nested index in the tile's range.
-/

/-- Python's `x % y` for a positive rational modulus: the representative of
`x` modulo `y` lying in `[0, y)`. -/
def qmod (x y : ℚ) : ℚ := x - y * ⌊x / y⌋

/-- Shallow embedding of `crud.get_coverage_range` (crud.py lines 92-129):
validates `fov > 0`, `0 ≤ ra < 360`, `-90 ≤ dec ≤ 90` (raising `ValueError`
otherwise, modelled as `Except.error` with the source's message), then
returns `(ra_min, ra_max, dec_min, dec_max)` with the RA bounds reduced
modulo 360 and the Dec bounds left unwrapped. -/
def get_coverage_range (ra dec fov : ℚ) : Except String (ℚ × ℚ × ℚ × ℚ) :=
  if fov ≤ 0 then
    Except.error "Field of view must be a positive value."
  else if ¬ (0 ≤ ra ∧ ra < 360) then
    Except.error "Right Ascension (RA) must be between 0 and 360 degrees."
  else if ¬ (-90 ≤ dec ∧ dec ≤ 90) then
    Except.error "Declination (Dec) must be between -90 and 90 degrees."
  else
    let fov_radius := fov / 2
    Except.ok (qmod (ra - fov_radius) 360, qmod (ra + fov_radius) 360,
               dec - fov_radius, dec + fov_radius)

/-- Returns `true` exactly when the computation returned normally. -/
def exceptOk {ε α : Type} (e : Except ε α) : Bool :=
  match e with
  | Except.ok _ => true
  | Except.error _ => false

example : get_coverage_range 1 0 4 =
    Except.ok (359, 3, -2, 2) := by norm_num [get_coverage_range, qmod]

example : exceptOk (get_coverage_range 360 0 4) = false := by
  norm_num [get_coverage_range, exceptOk]

/-- The `Source` row of `model.py` (table `sources`): name, RA/Dec with
errors, a precomputed indexable HEALPix position (`healpix_alchemy.Point`,
a nested index at the maximal order, modelled as `Nat`), shape parameters
and wide-band flux with errors.  Note the column names: `Flux_Wide` exists,
but no `flux_wide`, `telescope` or `fov` column is declared. -/
structure Source where
  id : Nat
  name : String
  RAJ2000 : ℚ
  RAJ2000_Error : ℚ
  DecJ2000 : ℚ
  DecJ2000_Error : ℚ
  Heal_Pix_Position : Nat
  A_Wide : ℚ
  A_Wide_Error : ℚ
  B_Wide : ℚ
  B_Wide_Error : ℚ
  PA_Wide : ℚ
  PA_Wide_Error : ℚ
  Flux_Wide : ℚ
  Flux_Wide_Error : ℚ
  deriving DecidableEq, Repr

/-- Modelled from the spec: a hierarchical sky tile at a fixed subdivision
depth (`healpix_alchemy.Tile`, absent from the available sources), encoded
as the half-open range `[lo, hi)` of maximal-order nested HEALPix indices
it covers. -/
structure HpxTile where
  lo : Nat
  hi : Nat
  deriving DecidableEq, Repr

/-- Tile/point containment (`Tile.contains(Point)` of healpix_alchemy,
modelled from the spec): the point's nested index lies in the tile's
nested-index range. -/
def HpxTile.containsPoint (t : HpxTile) (p : Nat) : Bool :=
  t.lo ≤ p && p < t.hi

/-- Modelled from the spec: the `AOI` row imported by `crud.py` from
`model.py` but absent from the available sources — a persisted
hierarchical tile identifier (`hpx`) with a store-assigned integer
primary key (`id`). -/
structure AOI where
  id : Nat
  hpx : HpxTile
  deriving DecidableEq, Repr

/-- The persistent state visible to the query path: the `aoi` table (with
its autoincrement counter) and the `sources` table. -/
structure DB where
  aois : List AOI
  next_aoi_id : Nat
  sources : List Source
  deriving Repr

/-- One tile registration step of `get_local_sky_model` (crud.py lines
62-67): `AOI(hpx=hpx)` followed by `db.add` / `db.commit` — a fresh row
with the next autoincrement id is always inserted; there is no lookup of
an existing AOI with the same `hpx`. -/
def registerTile (db : DB) (hpx : HpxTile) : DB × AOI :=
  let aoi : AOI := ⟨db.next_aoi_id, hpx⟩
  (⟨db.aois ++ [aoi], db.next_aoi_id + 1, db.sources⟩, aoi)

/-- Registration of a whole tile list, in order (the list comprehension
plus the `db.add` loop of crud.py lines 63-67). -/
def registerTiles (db : DB) (tiles : List HpxTile) : DB × List AOI :=
  match tiles with
  | [] => (db, [])
  | t :: ts =>
      let r1 := registerTile db t
      let r2 := registerTiles r1.1 ts
      (r2.1, r1.2 :: r2.2)

/-- The containment join of crud.py lines 70-74:
`db.query(Source).filter(AOI.id.in_(aoi_ids), AOI.hpx.contains(Source.Heal_Pix_Position))`
— the Source rows paired with at least one AOI row whose id is in
`aoi_ids` and whose tile contains the source's indexable position. -/
def sources_within (sources : List Source) (aois : List AOI)
    (aoi_ids : List Nat) : List Source :=
  sources.filter (fun s =>
    aois.any (fun a =>
      aoi_ids.contains a.id && a.hpx.containsPoint s.Heal_Pix_Position))

/-- The assembled result of `get_local_sky_model` (crud.py lines 81-87).
`α` is the external source representation produced by `source.to_json`. -/
structure LocalSkyModel (α : Type) where
  region_ra : List ℚ
  region_dec : List ℚ
  count : Nat
  sources_in_area_of_interest : List α

/-- Shallow embedding of `crud.get_local_sky_model` (crud.py lines 17-89).
`tiles_from` stands for `healpix_alchemy.Tile.tiles_from(SkyCoord(ra, dec))`
(external library geometry) and `to_json` for `Source.to_json` (absent
from the available sources): both are taken as parameters.  The function
tiles the region, persists one fresh AOI per tile, joins the sources
contained in those tiles, and packages the region echo, the count and the
rendered sources. -/
def get_local_sky_model {α : Type}
    (tiles_from : List ℚ → List ℚ → List HpxTile)
    (to_json : Source → α)
    (db : DB) (ra : List ℚ) (dec : List ℚ)
    (_flux_wide : ℚ) (_telescope : String) (_fov : ℚ) :
    DB × LocalSkyModel α :=
  let tiles := tiles_from ra dec
  let reg := registerTiles db tiles
  let db1 := reg.1
  let areas_or_interest := reg.2
  let aoi_ids := areas_or_interest.map AOI.id
  let found := sources_within db1.sources db1.aois aoi_ids
  (db1,
   { region_ra := ra
     region_dec := dec
     count := found.length
     sources_in_area_of_interest := found.map to_json })

/-- Shallow embedding of `crud.get_sources_by_criteria` (crud.py lines
135-176).  Omitted criteria are `none`; a present criterion appends an
equality filter.  The columns referenced for the last three criteria —
`Source.flux_wide`, `Source.telescope`, `Source.fov` — are not declared on
the `Source` model of `model.py` (it has `Flux_Wide` and no telescope/fov
column), so building those filters raises `AttributeError` in the order
the arguments are inspected; this is modelled as `Except.error`. -/
def get_sources_by_criteria (db : List Source)
    (ra : Option ℚ) (dec : Option ℚ) (flux_wide : Option ℚ)
    (telescope : Option String) (fov : Option ℚ) :
    Except String (List Source) :=
  if flux_wide.isSome then
    Except.error "AttributeError: type object Source has no attribute flux_wide"
  else if telescope.isSome then
    Except.error "AttributeError: type object Source has no attribute telescope"
  else if fov.isSome then
    Except.error "AttributeError: type object Source has no attribute fov"
  else
    Except.ok (db.filter (fun s =>
      (match ra with
       | none => true
       | some v => decide (s.RAJ2000 = v)) &&
      (match dec with
       | none => true
       | some v => decide (s.DecJ2000 = v))))

lemma qmod_bounds (x y : ℚ) (hy : 0 < y) : 0 ≤ qmod x y ∧ qmod x y < y := by
  unfold qmod
  have hy0 : y ≠ 0 := ne_of_gt hy
  have h1 : ((⌊x / y⌋ : ℤ) : ℚ) ≤ x / y := Int.floor_le (x / y)
  have h2 : x / y < (⌊x / y⌋ : ℤ) + 1 := Int.lt_floor_add_one (x / y)
  have hx : y * (x / y) = x := by field_simp
  have h3 : y * ((⌊x / y⌋ : ℤ) : ℚ) ≤ x := by nlinarith
  have h4 : x < y * ((⌊x / y⌋ : ℤ) : ℚ) + y := by nlinarith
  constructor <;> linarith

lemma qmod_add_int_mul (x y : ℚ) (k : ℤ) (hy : y ≠ 0) :
    qmod (x + y * k) y = qmod x y := by
  unfold qmod
  have h : (x + y * k) / y = x / y + k := by
    field_simp
    ring
  rw [h, Int.floor_add_int]
  push_cast
  ring

lemma qmod_eq_self (x y : ℚ) (h0 : 0 ≤ x) (h1 : x < y) : qmod x y = x := by
  unfold qmod
  have hy : 0 < y := lt_of_le_of_lt h0 h1
  have hfl : ⌊x / y⌋ = 0 := by
    rw [Int.floor_eq_zero_iff]
    exact ⟨div_nonneg h0 (le_of_lt hy), (div_lt_one hy).mpr h1⟩
  rw [hfl]
  push_cast
  ring

lemma coverage_ok (ra dec fov : ℚ) (hra0 : 0 ≤ ra) (hra1 : ra < 360)
    (hdec0 : -90 ≤ dec) (hdec1 : dec ≤ 90) (hfov : 0 < fov) :
    get_coverage_range ra dec fov =
      Except.ok (qmod (ra - fov / 2) 360, qmod (ra + fov / 2) 360,
                 dec - fov / 2, dec + fov / 2) := by
  unfold get_coverage_range
  rw [if_neg (not_le.mpr hfov), if_neg (not_not_intro ⟨hra0, hra1⟩),
      if_neg (not_not_intro ⟨hdec0, hdec1⟩)]

/-- C2: on every valid input the Coordinate Range Calculator returns
`ra_min = (ra - fov/2) mod 360`, `ra_max = (ra + fov/2) mod 360`,
`dec_min = dec - fov/2`, `dec_max = dec + fov/2` with no wrap applied to
Dec; in particular for center `ra = 1`, `fov = 4` it returns
`ra_min = 359` and `ra_max = 3` (the RA range wraps through 0°). -/
theorem coverage_range_formula (ra dec fov : ℚ) (hra0 : 0 ≤ ra)
    (hra1 : ra < 360) (hdec0 : -90 ≤ dec) (hdec1 : dec ≤ 90)
    (hfov : 0 < fov) :
    get_coverage_range ra dec fov =
      Except.ok (qmod (ra - fov / 2) 360, qmod (ra + fov / 2) 360,
                 dec - fov / 2, dec + fov / 2) ∧
    get_coverage_range 1 0 4 = Except.ok (359, 3, -2, 2) := by
  refine ⟨coverage_ok ra dec fov hra0 hra1 hdec0 hdec1 hfov, ?_⟩
  norm_num [get_coverage_range, qmod]

/-- Witness for C2 at the wrap-around input `ra = 1`, `dec = 0`, `fov = 4`. -/
theorem coverage_range_formula_witness :
    get_coverage_range 1 0 4 =
      Except.ok (qmod (1 - 4 / 2) 360, qmod (1 + 4 / 2) 360,
                 0 - 4 / 2, 0 + 4 / 2) ∧
    get_coverage_range 1 0 4 = Except.ok (359, 3, -2, 2) :=
  coverage_range_formula 1 0 4 (by norm_num) (by norm_num) (by norm_num)
    (by norm_num) (by norm_num)

/-- C4: the Coordinate Range Calculator returns normally exactly when
`fov > 0`, `0 ≤ ra < 360` and `-90 ≤ dec ≤ 90` all hold; every violation
(including `fov = 0`, `ra = 360`, `dec = 91`) makes it raise. -/
theorem coverage_range_validation (ra dec fov : ℚ) :
    exceptOk (get_coverage_range ra dec fov) = true ↔
      (0 < fov ∧ (0 ≤ ra ∧ ra < 360) ∧ (-90 ≤ dec ∧ dec ≤ 90)) := by
  by_cases h1 : fov ≤ 0
  · have hE : get_coverage_range ra dec fov =
        Except.error "Field of view must be a positive value." := by
      unfold get_coverage_range
      rw [if_pos h1]
    rw [hE]
    simp only [exceptOk, Bool.false_eq_true, false_iff]
    rintro ⟨hf, -⟩
    linarith
  · by_cases h2 : 0 ≤ ra ∧ ra < 360
    · by_cases h3 : -90 ≤ dec ∧ dec ≤ 90
      · rw [coverage_ok ra dec fov h2.1 h2.2 h3.1 h3.2 (not_le.mp h1)]
        simp only [exceptOk, true_iff]
        exact ⟨not_le.mp h1, h2, h3⟩
      · have hE : get_coverage_range ra dec fov =
            Except.error "Declination (Dec) must be between -90 and 90 degrees." := by
          unfold get_coverage_range
          rw [if_neg h1, if_neg (not_not_intro h2), if_pos h3]
        rw [hE]
        simp only [exceptOk, Bool.false_eq_true, false_iff]
        rintro ⟨-, -, hdec⟩
        exact h3 hdec
    · have hE : get_coverage_range ra dec fov =
          Except.error "Right Ascension (RA) must be between 0 and 360 degrees." := by
        unfold get_coverage_range
        rw [if_neg h1, if_pos h2]
      rw [hE]
      simp only [exceptOk, Bool.false_eq_true, false_iff]
      rintro ⟨-, hra, -⟩
      exact h2 hra

/-- C9: the calculator does not clamp declination: at `dec = 89`, `fov = 4`
the returned `dec_max` is `91 > 90`, and at `dec = -89`, `fov = 4` the
returned `dec_min` is `-91 < -90`. -/
theorem coverage_range_no_dec_clamp :
    get_coverage_range 0 89 4 = Except.ok (358, 2, 87, 91) ∧ (90 : ℚ) < 91 ∧
    get_coverage_range 0 (-89) 4 = Except.ok (358, 2, -91, -87) ∧
    (-91 : ℚ) < -90 := by
  refine ⟨?_, by norm_num, ?_, by norm_num⟩ <;>
    norm_num [get_coverage_range, qmod]

/-- C6: on every valid input the returned RA bounds lie in `[0, 360)`, for
`fov < 360` the RA extent `(ra_max - ra_min) mod 360` equals `fov`, and the
Dec extent `dec_max - dec_min` equals `fov` exactly. -/
theorem coverage_range_extent (ra dec fov : ℚ) (hra0 : 0 ≤ ra)
    (hra1 : ra < 360) (hdec0 : -90 ≤ dec) (hdec1 : dec ≤ 90)
    (hfov : 0 < fov) (ra_min ra_max dec_min dec_max : ℚ)
    (h : get_coverage_range ra dec fov =
      Except.ok (ra_min, ra_max, dec_min, dec_max)) :
    (0 ≤ ra_min ∧ ra_min < 360) ∧ (0 ≤ ra_max ∧ ra_max < 360) ∧
    (fov < 360 → qmod (ra_max - ra_min) 360 = fov) ∧
    dec_max - dec_min = fov := by
  rw [coverage_ok ra dec fov hra0 hra1 hdec0 hdec1 hfov] at h
  simp only [Except.ok.injEq, Prod.mk.injEq] at h
  obtain ⟨e1, e2, e3, e4⟩ := h
  subst e1
  subst e2
  subst e3
  subst e4
  refine ⟨qmod_bounds _ 360 (by norm_num), qmod_bounds _ 360 (by norm_num),
    ?_, by ring⟩
  intro h360
  have key : qmod (ra + fov / 2) 360 - qmod (ra - fov / 2) 360 =
      fov + 360 * ((⌊(ra - fov / 2) / 360⌋ - ⌊(ra + fov / 2) / 360⌋ : ℤ) : ℚ) := by
    unfold qmod
    push_cast
    ring
  rw [key, qmod_add_int_mul fov 360 _ (by norm_num),
      qmod_eq_self fov 360 (le_of_lt hfov) h360]

/-- Witness for C6 at `ra = 1`, `dec = 0`, `fov = 4`, whose output is
`(359, 3, -2, 2)`. -/
theorem coverage_range_extent_witness :
    ((0 : ℚ) ≤ 359 ∧ (359 : ℚ) < 360) ∧ ((0 : ℚ) ≤ 3 ∧ (3 : ℚ) < 360) ∧
    ((4 : ℚ) < 360 → qmod ((3 : ℚ) - 359) 360 = 4) ∧
    (2 : ℚ) - (-2) = 4 :=
  coverage_range_extent 1 0 4 (by norm_num) (by norm_num) (by norm_num)
    (by norm_num) (by norm_num) 359 3 (-2) 2
    (by norm_num [get_coverage_range, qmod])

/-- C1 counterexample: starting from an empty store, registering the tile
`[0, 1024)` twice yields two AOIs with different ids (and two persisted
rows), refuting idempotency of registration. -/
theorem register_not_idempotent_cex :
    ((registerTile (registerTile ⟨[], 0, []⟩ ⟨0, 1024⟩).1 ⟨0, 1024⟩).2).id ≠
      ((registerTile (⟨[], 0, []⟩ : DB) ⟨0, 1024⟩).2).id ∧
    ((registerTile (registerTile ⟨[], 0, []⟩ ⟨0, 1024⟩).1 ⟨0, 1024⟩).1).aois.length = 2 := by
  decide

/-- C1 amended: tile registration is never idempotent — every registration
inserts a fresh AOI row with a new id, so registering the same tile twice
from any store state yields two AOIs with distinct ids and grows the AOI
table by two rows. -/
theorem register_always_inserts (db : DB) (t : HpxTile) :
    ((registerTile (registerTile db t).1 t).2).id ≠
      ((registerTile db t).2).id ∧
    ((registerTile (registerTile db t).1 t).1).aois.length =
      db.aois.length + 2 := by
  refine ⟨?_, ?_⟩ <;> simp [registerTile]

/-- C3: the containment join returns exactly the sources whose indexable
HEALPix position is contained by the tile of at least one AOI row whose id
is in the requested identifier set. -/
theorem sources_within_containment (sources : List Source)
    (aois : List AOI) (aoi_ids : List Nat) (s : Source) :
    s ∈ sources_within sources aois aoi_ids ↔
      (s ∈ sources ∧ ∃ a ∈ aois, a.id ∈ aoi_ids ∧
        a.hpx.containsPoint s.Heal_Pix_Position = true) := by
  unfold sources_within
  simp [List.mem_filter, List.any_eq_true, Bool.and_eq_true]

/-- C7: the assembled local sky model echoes the requested region bounds
unchanged and reports a count equal to the length of the returned source
list. -/
theorem local_sky_model_package {α : Type}
    (tiles_from : List ℚ → List ℚ → List HpxTile) (to_json : Source → α)
    (db : DB) (ra dec : List ℚ) (flux_wide : ℚ) (tel : String) (fov : ℚ) :
    (get_local_sky_model tiles_from to_json db ra dec flux_wide tel fov).2.region_ra = ra ∧
    (get_local_sky_model tiles_from to_json db ra dec flux_wide tel fov).2.region_dec = dec ∧
    (get_local_sky_model tiles_from to_json db ra dec flux_wide tel fov).2.count =
      (get_local_sky_model tiles_from to_json db ra dec flux_wide tel fov).2.sources_in_area_of_interest.length := by
  refine ⟨rfl, rfl, ?_⟩
  simp [get_local_sky_model]

lemma registerTiles_sources (db : DB) (ts : List HpxTile) :
    (registerTiles db ts).1.sources = db.sources := by
  induction ts generalizing db with
  | nil => rfl
  | cons t ts ih => simp [registerTiles, registerTile, ih]

/-- C8: the query path never modifies Source rows — after a whole
local-sky-model query the `sources` table is exactly what it was before
(only AOI rows are added). -/
theorem query_preserves_sources {α : Type}
    (tiles_from : List ℚ → List ℚ → List HpxTile) (to_json : Source → α)
    (db : DB) (ra dec : List ℚ) (flux_wide : ℚ) (tel : String) (fov : ℚ) :
    (get_local_sky_model tiles_from to_json db ra dec flux_wide tel fov).1.sources =
      db.sources := by
  simp only [get_local_sky_model]
  exact registerTiles_sources db (tiles_from ra dec)

/-- C5: evaluating the criteria filter at a failing input — a telescope
criterion on a one-source catalog — raises `AttributeError` instead of
returning the matching sources, because the `Source` model declares no
`telescope` column (nor `flux_wide` or `fov`). -/
theorem criteria_filter_crashes :
    get_sources_by_criteria
      [⟨1, "J1", 10, 0, 10, 0, 100, 1, 0, 1, 0, 0, 0, 5, 0⟩]
      none none none (some "MWA") none =
      Except.error "AttributeError: type object Source has no attribute telescope" := rfl

/-- C10 counterexample: an empty-string telescope criterion on a one-source
catalog does not filter the catalog at all — the call fails with
`AttributeError`, returning no list. -/
theorem criteria_empty_telescope_errors :
    get_sources_by_criteria
      [⟨1, "J1", 10, 0, 10, 0, 100, 1, 0, 1, 0, 0, 0, 5, 0⟩]
      none none none (some "") none =
      Except.error "AttributeError: type object Source has no attribute telescope" := rfl

/-- C10 amended: only `None` marks an omitted criterion.  A value of `0.0`
for RA or Dec is a present equality constraint that filters the catalog; a
value of `0.0` for wide-band flux or field-of-view, or an empty string for
telescope, is likewise treated as present (not as an omitted key) but
raises `AttributeError` because the `Source` model lacks those columns. -/
theorem criteria_presence_semantics (db : List Source) :
    get_sources_by_criteria db (some 0) none none none none =
      Except.ok (db.filter (fun s => decide (s.RAJ2000 = 0))) ∧
    get_sources_by_criteria db none (some 0) none none none =
      Except.ok (db.filter (fun s => decide (s.DecJ2000 = 0))) ∧
    get_sources_by_criteria db none none (some 0) none none =
      Except.error "AttributeError: type object Source has no attribute flux_wide" ∧
    get_sources_by_criteria db none none none (some "") none =
      Except.error "AttributeError: type object Source has no attribute telescope" ∧
    get_sources_by_criteria db none none none none (some 0) =
      Except.error "AttributeError: type object Source has no attribute fov" := by
  refine ⟨?_, ?_, rfl, rfl, rfl⟩ <;> simp [get_sources_by_criteria]
